import Mathlib

/-!
Verification of the akshare-financial-analysis repository.

Shallow embedding of the functions named by the claims:
  * src/07_财务分析.py : get_value_from_row, extract_year_data,
    calculate_revenue_metrics (per-year cells), calculate_roi_metrics
    (per-year cells), calculate_growth_metrics (CAGR cells);
  * src/hk_financial_adapter.py : is_hk_stock, get_hk_column_mapping,
    convert_hk_long_to_wide, get_hk_employee_count_by_year;
  * src/智能_从年报提取员工数量.py : _is_reasonable_employee_count,
    _is_employee_related_row, _calculate_table_confidence,
    _calculate_text_confidence, _extract_from_structured_table.

Python floats are modelled by ℚ; an abstract power function stands in for
float pow where a claim mentions it.  Python round(x, 2) (round half to
even) is modelled by a single function round2 on ℚ used both in the
embedding and in the claim statements, so the rounding convention is shared
between the two sides; concrete witnesses avoid exact ties.  Python strings
are Lean strings, with substring search and str.replace re-implemented on
character lists so that the kernel can evaluate them.
-/

set_option maxRecDepth 40000

set_option allowUnsafeReducibility true

attribute [semireducible] Rat.mul Rat.add Rat.sub Rat.inv Rat.blt Rat.floor Rat.ceil

/-- Boolean prefix test on character lists. -/
def isPrefixList : List Char → List Char → Bool
  | [], _ => true
  | _ :: _, [] => false
  | a :: ps, b :: bs => a == b && isPrefixList ps bs

/-- Boolean contiguous-sublist test on character lists. -/
def listIsInfix (pat : List Char) : List Char → Bool
  | [] => pat.isEmpty
  | c :: rest => isPrefixList pat (c :: rest) || listIsInfix pat rest

/-- Substring test: Python (pat in s), contiguous substring by characters. -/
def strContains (s pat : String) : Bool :=
  listIsInfix pat.toList s.toList

/-- Left-to-right non-overlapping replacement on character lists, with fuel;
the replacement text is not rescanned, matching Python str.replace. -/
def replaceFuel (pat repl : List Char) : Nat → List Char → List Char
  | 0, s => s
  | Nat.succ f, s =>
    match s with
    | [] => []
    | c :: rest =>
      if isPrefixList pat (c :: rest) && !pat.isEmpty then
        repl ++ replaceFuel pat repl f (List.drop (pat.length - 1) rest)
      else
        c :: replaceFuel pat repl f rest

/-- Python s.replace(pat, repl) for a non-empty pattern. -/
def pyReplace (s pat repl : String) : String :=
  String.mk (replaceFuel pat.toList repl.toList s.toList.length s.toList)

/-- Round half to even to the nearest integer (Python round(x)). -/
def roundHalfEven (q : ℚ) : ℤ :=
  let n := ⌊q⌋
  let frac := q - (n : ℚ)
  if frac < 1 / 2 then n
  else if 1 / 2 < frac then n + 1
  else if n % 2 = 0 then n else n + 1

/-- Python round(x, 2): round to two decimal places, half to even. -/
def round2 (q : ℚ) : ℚ :=
  (roundHalfEven (q * 100) : ℚ) / 100

/-- A cell of a pandas statement row, as seen by float(value):
either it parses to a finite non-NaN float (num), parses to NaN (nan),
or float() raises ValueError/TypeError on it (s, a non-numeric value,
kept with its str() rendering, e.g. a date string). -/
inductive Cell where
  | num (q : ℚ)
  | nan
  | s (v : String)
deriving DecidableEq, Repr

/-- Python str() of a cell.  Date columns hold strings (rendered verbatim);
numeric cells are rendered through ℚ, NaN as the pandas astype(str) text. -/
def Cell.pyStr : Cell → String
  | Cell.num q => toString q
  | Cell.nan => "nan"
  | Cell.s v => v

/-- Whether a cell parses as a finite non-NaN float. -/
def Cell.isNum : Cell → Bool
  | Cell.num _ => true
  | Cell.nan => false
  | Cell.s _ => false

/-- A statement row: a pandas Series with a string index, modelled as an
association list column-name ↦ cell (column membership = lookup succeeds). -/
def Row : Type := List (String × Cell)

instance : DecidableEq Row := by
  unfold Row
  infer_instance

/-- Column access inside a well-formed row (every row of a frame carries
every column; the default is never reached on well-formed frames). -/
def Row.cellAt (r : Row) (c : String) : Cell :=
  ((r : List (String × Cell)).lookup c).getD Cell.nan

/-- A statement DataFrame: named columns and a list of rows. -/
structure DF where
  cols : List String
  rows : List Row
deriving DecidableEq

/-- A value flowing through the metric code: a number or the "-" string
placeholder (the Python code mixes floats and strings freely here). -/
inductive PyVal where
  | num (q : ℚ)
  | str (v : String)
deriving DecidableEq, Repr

/-- The "-" placeholder used by the metric tables for missing data. -/
def dash : PyVal := PyVal.str "-"

/-- Numeric content of a PyVal; only used under guards that already
ensured the value is numeric, mirroring the Python control flow. -/
def PyVal.toQ : PyVal → ℚ
  | PyVal.num q => q
  | PyVal.str _ => 0

namespace FinAnalysis

/-- get_value_from_row from src/07_财务分析.py (lines 128-158), specialised
to return_numeric=True, the mode every call site analysed here uses:
returns round(float(value)/100000000, 2) when the cell exists and parses as
a non-NaN float, and the caller-supplied default otherwise (row is None,
column absent, value NaN, or float() raising ValueError/TypeError). -/
def get_value_from_row (row : Option Row) (column_name : String)
    (default : PyVal) : PyVal :=
  match row with
  | none => default
  | some r =>
    match r.lookup column_name with
    | none => default
    | some (Cell.num v) => PyVal.num (round2 (v / 100000000))
    | some Cell.nan => default
    | some (Cell.s _) => default

/-- extract_year_data from src/07_财务分析.py (lines 91-126): find the first
column whose name contains date_col_name or 报告期, keep the rows whose
date cell (as a string) contains both str(year) and 12-31, and return the
last of them; None when the frame is None/empty, no column matches, or no
row matches. -/
def extract_year_data (df : Option DF) (year : ℤ)
    (date_col_name : String) : Option Row :=
  match df with
  | none => none
  | some d =>
    if d.rows.isEmpty then none
    else
      match d.cols.find? (fun c => strContains c date_col_name || strContains c "报告期") with
      | none => none
      | some date_col =>
        (d.rows.filter (fun r =>
          strContains (Cell.pyStr (Row.cellAt r date_col)) (toString year) &&
          strContains (Cell.pyStr (Row.cellAt r date_col)) "12-31")).getLast?

/-- The thirteen per-year cells of calculate_revenue_metrics from
src/07_财务分析.py (lines 160-326) as a function of the year's profit and
cash-flow rows (the loop body is a pure function of the two rows extracted
by extract_year_data; a continue leaves the remaining cells at "-").
Cell order: 收入, 归母净利润, 净利润率, 扣非净利润, 经营净现金流, CAPEX,
自由现金流, 扣非/净利润, 经营现金流/净利润, 金融利润, 经营利润,
经营利润/归母利润, 金融利润/归母利润. -/
def revenue_year_cells (profit_row cash_flow_row : Option Row) : List PyVal :=
  match profit_row, cash_flow_row with
  | some _, some _ =>
    let revenue := get_value_from_row profit_row "OPERATE_INCOME" dash
    if revenue = dash then List.replicate 13 dash
    else
      let pnp := get_value_from_row profit_row "PARENT_NETPROFIT" dash
      if pnp = dash then revenue :: List.replicate 12 dash
      else
        let margin := PyVal.num (round2 (if revenue.toQ ≠ 0 then pnp.toQ / revenue.toQ * 100 else 0))
        let deduct := get_value_from_row profit_row "DEDUCT_PARENT_NETPROFIT" dash
        let op_cf := get_value_from_row cash_flow_row "NETCASH_OPERATE" dash
        let capex := get_value_from_row cash_flow_row "CONSTRUCT_LONG_ASSET" dash
        let fcf :=
          if op_cf ≠ dash ∧ capex ≠ dash then PyVal.num (round2 (op_cf.toQ - capex.toQ))
          else dash
        let deduct_ratio_v :=
          if deduct ≠ dash ∧ pnp ≠ dash ∧ pnp.toQ ≠ 0 then
            PyVal.num (round2 (deduct.toQ / pnp.toQ * 100))
          else dash
        let cash_ratio_v :=
          if op_cf ≠ dash ∧ pnp ≠ dash ∧ pnp.toQ ≠ 0 then
            PyVal.num (round2 (op_cf.toQ / pnp.toQ * 100))
          else dash
        let fv0 := get_value_from_row profit_row "FAIRVALUE_CHANGE_INCOME" (PyVal.num 0)
        let fv := if fv0 = dash then (0 : ℚ) else fv0.toQ
        let inv0 := get_value_from_row profit_row "INVEST_INCOME" (PyVal.num 0)
        let inv := if inv0 = dash then (0 : ℚ) else inv0.toQ
        let fin_profit := PyVal.num (round2 (fv + inv))
        let op_profit :=
          if pnp ≠ dash ∧ fin_profit ≠ dash then PyVal.num (round2 (pnp.toQ - fin_profit.toQ))
          else dash
        let op_ratio_v :=
          if op_profit ≠ dash ∧ pnp ≠ dash ∧ pnp.toQ ≠ 0 then
            PyVal.num (round2 (op_profit.toQ / pnp.toQ * 100))
          else dash
        let fp_ratio_v :=
          if fin_profit ≠ dash ∧ pnp ≠ dash ∧ pnp.toQ ≠ 0 then
            PyVal.num (round2 (fin_profit.toQ / pnp.toQ * 100))
          else dash
        [revenue, pnp, margin, deduct, op_cf, capex, fcf, deduct_ratio_v, cash_ratio_v,
          fin_profit, op_profit, op_ratio_v, fp_ratio_v]
  | _, _ => List.replicate 13 dash

/-- The interest-expense part of the ROIC computation in calculate_roi_metrics
(src/07_财务分析.py lines 1714-1722): FE_INTEREST_EXPENSE is fetched with
default 0, so it is never the string "-" and the commented FINANCE_EXPENSE
fallback branch is unreachable; the embedding keeps the dead branch as
written. -/
def roi_interest_expense (profit_row : Option Row) : ℚ :=
  let interest0 := get_value_from_row profit_row "FE_INTEREST_EXPENSE" (PyVal.num 0)
  if interest0 = dash then
    let fe0 := get_value_from_row profit_row "FINANCE_EXPENSE" (PyVal.num 0)
    if fe0 = dash then (0 : ℚ) else |fe0.toQ|
  else interest0.toQ

/-- The invested-capital part of the ROIC computation in calculate_roi_metrics
(src/07_财务分析.py lines 1725-1741): total assets minus the rounded sum of
accounts payable, advance receivables and contract liabilities, each
defaulted to 0 when missing, rounded to two decimals. -/
def roi_invested_capital (balance_row : Option Row) (total_assets : ℚ) : ℚ :=
  let ap0 := get_value_from_row balance_row "ACCOUNTS_PAYABLE" (PyVal.num 0)
  let ar0 := get_value_from_row balance_row "ADVANCE_RECEIVABLES" (PyVal.num 0)
  let cl0 := get_value_from_row balance_row "CONTRACT_LIAB" (PyVal.num 0)
  let ap := if ap0 = dash then (0 : ℚ) else ap0.toQ
  let ar := if ar0 = dash then (0 : ℚ) else ar0.toQ
  let cl := if cl0 = dash then (0 : ℚ) else cl0.toQ
  round2 (total_assets - round2 (ap + ar + cl))

/-- The six per-year cells of calculate_roi_metrics from src/07_财务分析.py
(lines 1582-1778) as a function of the year's balance-sheet and profit rows.
Cell order: ROE, ROA, ROIC, 销售净利率, 资产周转率, 权益乘数.
(The source also fetches FINANCE_EXPENSE inside the operating-profit
fallback without using it in the sum of period expenses; that dead read is
not modelled.) -/
def roi_year_cells (balance_row profit_row : Option Row) : List PyVal :=
  match balance_row, profit_row with
  | some _, some _ =>
    let pnp := get_value_from_row profit_row "PARENT_NETPROFIT" dash
    if pnp = dash then List.replicate 6 dash else
    let revenue := get_value_from_row profit_row "OPERATE_INCOME" dash
    if revenue = dash then List.replicate 6 dash else
    let ta := get_value_from_row balance_row "TOTAL_ASSETS" dash
    if ta = dash then List.replicate 6 dash else
    let pe := get_value_from_row balance_row "TOTAL_PARENT_EQUITY" dash
    if pe = dash then List.replicate 6 dash else
    let roe := if pe ≠ dash ∧ pe.toQ ≠ 0 then PyVal.num (round2 (pnp.toQ / pe.toQ * 100)) else dash
    let roa := if ta ≠ dash ∧ ta.toQ ≠ 0 then PyVal.num (round2 (pnp.toQ / ta.toQ * 100)) else dash
    let op0 := get_value_from_row profit_row "OPERATE_PROFIT" dash
    let op :=
      if op0 = dash then
        let oc0 := get_value_from_row profit_row "OPERATE_COST" (PyVal.num 0)
        let oc := if oc0 = dash then (0 : ℚ) else oc0.toQ
        let se0 := get_value_from_row profit_row "SALE_EXPENSE" (PyVal.num 0)
        let me0 := get_value_from_row profit_row "MANAGE_EXPENSE" (PyVal.num 0)
        let re0 := get_value_from_row profit_row "RESEARCH_EXPENSE" (PyVal.num 0)
        let se := if se0 = dash then (0 : ℚ) else se0.toQ
        let me1 := if me0 = dash then (0 : ℚ) else me0.toQ
        let re1 := if re0 = dash then (0 : ℚ) else re0.toQ
        PyVal.num (round2 (revenue.toQ - oc - (se + me1 + re1)))
      else op0
    let interest := roi_interest_expense profit_row
    let ebit := if op ≠ dash then PyVal.num (round2 (op.toQ + interest)) else dash
    let ic := roi_invested_capital balance_row ta.toQ
    let roic := if ebit ≠ dash ∧ ic ≠ 0 then PyVal.num (round2 (ebit.toQ / ic * 100)) else dash
    let margin := if revenue ≠ dash ∧ revenue.toQ ≠ 0 then PyVal.num (round2 (pnp.toQ / revenue.toQ * 100)) else dash
    let turnover := if ta ≠ dash ∧ ta.toQ ≠ 0 then PyVal.num (round2 (revenue.toQ / ta.toQ)) else dash
    let multiplier := if pe ≠ dash ∧ pe.toQ ≠ 0 then PyVal.num (round2 (ta.toQ / pe.toQ)) else dash
    [roe, roa, roic, margin, turnover, multiplier]
  | _, _ => List.replicate 6 dash

/-- The per-year value dictionaries of calculate_growth_metrics from
src/07_财务分析.py (lines 573-589): revenue_values / profit_values hold,
for each year of the requested range, the rescaled statement value when the
year's row exists and the column parses, and no entry otherwise. -/
def year_metric_value (profit : Option DF) (col : String)
    (start_year end_year y : ℤ) : Option ℚ :=
  if start_year ≤ y ∧ y ≤ end_year then
    match get_value_from_row (extract_year_data profit y "REPORT_DATE") col dash with
    | PyVal.num q => some q
    | PyVal.str _ => none
  else none

/-- One compound-annual-growth-rate cell of calculate_growth_metrics from
src/07_财务分析.py (lines 629-725): needs both endpoint values, both
strictly positive, then (pow(ratio, 1/offset) - 1) * 100 rounded to two
decimals; otherwise the cell keeps "-".  powFn abstracts the Python float
pow; the ValueError/complex guards of the source are unreachable for a
positive ratio and are not modelled. -/
def cagr_cell (powFn : ℚ → ℚ → ℚ) (v : ℤ → Option ℚ)
    (end_year : ℤ) (offset : ℕ) : PyVal :=
  match v end_year, v (end_year - (offset : ℤ)) with
  | some e, some st =>
    if 0 < st ∧ 0 < e then
      if 0 < e / st then
        PyVal.num (round2 ((powFn (e / st) (1 / (offset : ℚ)) - 1) * 100))
      else dash
    else dash
  | _, _ => dash

/-- The 最近5年 / 最近3年 CAGR cell of calculate_growth_metrics for column
col (OPERATE_INCOME for revenue, PARENT_NETPROFIT for parent net profit)
and offset (5 or 3). -/
def growth_cagr_cell (powFn : ℚ → ℚ → ℚ) (profit : Option DF) (col : String)
    (start_year end_year : ℤ) (offset : ℕ) : PyVal :=
  cagr_cell powFn (year_metric_value profit col start_year end_year) end_year offset

end FinAnalysis

namespace HKAdapter

/-- is_hk_stock from src/hk_financial_adapter.py (lines 13-25):
strip '.HK', '.SZ', '.SH' and test for a 5-character all-digit code
(Python s.isdigit() on a non-empty ASCII candidate). -/
def is_hk_stock (symbol : String) : Bool :=
  let symbol_clean := pyReplace (pyReplace (pyReplace symbol ".HK" "") ".SZ" "") ".SH" ""
  symbol_clean.toList.length == 5 &&
    (!symbol_clean.toList.isEmpty && symbol_clean.toList.all Char.isDigit)

/-- First-occurrence duplicate removal (structural, kernel-evaluable). -/
def dedupAux {α : Type} [DecidableEq α] : List α → List α → List α
  | _, [] => []
  | seen, a :: rest =>
    if a ∈ seen then dedupAux seen rest else a :: dedupAux (a :: seen) rest

/-- Duplicate removal keeping the first occurrence of each element. -/
def firstDedup {α : Type} [DecidableEq α] (l : List α) : List α :=
  dedupAux [] l

/-- Stable insertion into a sorted list. -/
def insertLe {α : Type} (le : α → α → Bool) (a : α) : List α → List α
  | [] => [a]
  | b :: bs => if le a b then a :: b :: bs else b :: insertLe le a bs

/-- Stable insertion sort (structural, kernel-evaluable). -/
def insertionSort {α : Type} (le : α → α → Bool) : List α → List α
  | [] => []
  | a :: rest => insertLe le a (insertionSort le rest)

/-- get_hk_column_mapping from src/hk_financial_adapter.py (lines 193-261):
HK statement item name ↦ A-share field code, per sheet type, in the
insertion order of the Python dict literals. -/
def get_hk_column_mapping (sheet_type : String) : List (String × String) :=
  if sheet_type = "利润表" then
    [("营运收入", "OPERATE_INCOME"),
     ("股东应占溢利", "PARENT_NETPROFIT"),
     ("除税后溢利", "NET_PROFIT"),
     ("持续经营业务税后利润", "NET_PROFIT"),
     ("毛利", "GROSS_PROFIT"),
     ("营运支出", "OPERATE_COST"),
     ("销售及分销费用", "SALE_EXPENSE"),
     ("行政开支", "MANAGE_EXPENSE"),
     ("研发费用", "RESEARCH_EXPENSE"),
     ("融资成本", "FINANCE_EXPENSE"),
     ("利息收入", "INTEREST_INCOME"),
     ("利息支出", "INTEREST_EXPENSE"),
     ("投资收益", "INVEST_INCOME"),
     ("应占联营公司溢利", "INVEST_INCOME"),
     ("公允价值变动收益", "FAIRVALUE_CHANGE_INCOME"),
     ("经营溢利", "OPERATE_PROFIT")]
  else if sheet_type = "资产负债表" then
    [("总资产", "TOTAL_ASSETS"),
     ("流动资产合计", "TOTAL_CURRENT_ASSETS"),
     ("非流动资产合计", "TOTAL_NONCURRENT_ASSETS"),
     ("现金及等价物", "MONETARYFUNDS"),
     ("存货", "INVENTORY"),
     ("应收帐款", "ACCOUNTS_RECE"),
     ("预付款项", "PREPAYMENT"),
     ("预付款按金及其他应收款", "PREPAYMENT"),
     ("应付帐款", "ACCOUNTS_PAYABLE"),
     ("应付票据", "NOTE_PAYABLE"),
     ("预收账款", "ADVANCE_RECEIVABLES"),
     ("递延收入(流动)", "ADVANCE_RECEIVABLES"),
     ("总负债", "TOTAL_LIABILITIES"),
     ("股东权益", "TOTAL_PARENT_EQUITY"),
     ("净资产", "TOTAL_PARENT_EQUITY"),
     ("物业厂房及设备", "FIXED_ASSET"),
     ("固定资产", "FIXED_ASSET"),
     ("在建工程", "CIP"),
     ("无形资产", "INTANGIBLE_ASSET"),
     ("商誉", "GOODWILL"),
     ("短期借款", "SHORT_LOAN"),
     ("长期借款", "LONG_LOAN"),
     ("应付债券", "BONDS_PAYABLE"),
     ("应付职工薪酬", "STAFF_SALARY_PAYABLE"),
     ("合同资产", "CONTRACT_ASSET"),
     ("合同负债", "CONTRACT_LIAB")]
  else if sheet_type = "现金流量表" then
    [("经营业务现金净额", "NETCASH_OPERATE"),
     ("购建固定资产", "CONSTRUCT_LONG_ASSET"),
     ("支付给职工以及为职工支付的现金", "PAY_STAFF_CASH"),
     ("已付职工薪酬", "PAY_STAFF_CASH"),
     ("固定资产折旧", "FIXED_ASSET_DEPR"),
     ("折旧及摊销", "FIXED_ASSET_DEPR")]
  else []

/-- The STD_ITEM_NAME of a long-format row (a string cell). -/
def itemOf (r : Row) : String :=
  Cell.pyStr (Row.cellAt r "STD_ITEM_NAME")

/-- The date-column candidates tried in order by convert_hk_long_to_wide. -/
def chooseDateCol (cols : List String) : Option String :=
  ["REPORT_DATE", "STD_REPORT_DATE", "FISCAL_YEAR"].find? (fun c => c ∈ cols)

/-- The post-mapping column name of a long-format row: the A-share code if
STD_ITEM_NAME occurs in the sheet mapping, the original name otherwise. -/
def mappedItemName (mapping : List (String × String)) (r : Row) : String :=
  (mapping.lookup (itemOf r)).getD (itemOf r)

/-- The chinese_name_mapping dictionary built by convert_hk_long_to_wide
(lines 146-167): first, in mapping order, A-share code ↦ first HK item
name present in the frame; then, in row order, unmapped item ↦ itself,
each key inserted only once. -/
def hk_chinese_name_mapping (df : DF) (sheet_type : String) :
    List (String × String) :=
  let mapping := get_hk_column_mapping sheet_type
  let cnm1 := mapping.foldl
    (fun acc p =>
      if (df.rows.any (fun r => itemOf r == p.1)) ∧ (acc.lookup p.2).isNone then
        acc ++ [(p.2, p.1)]
      else acc) []
  df.rows.foldl
    (fun acc r =>
      if mappedItemName mapping r == itemOf r ∧ (acc.lookup (itemOf r)).isNone then
        acc ++ [(itemOf r, itemOf r)]
      else acc) cnm1

/-- A long-format row that contributes an observation to the pivot: its
date key is not NaN (groupby with the default dropna=True drops NaN keys)
and its AMOUNT is not NaN (pivot_table's post-aggregation
agged.dropna(how=all) removes every all-NaN group, so only non-NaN amounts
make a date or an item column exist). -/
def hk_valid_row (date_col : String) (r : Row) : Bool :=
  !(Row.cellAt r date_col == Cell.nan) && (Row.cellAt r "AMOUNT").isNum

/-- The column labels of the pivot: the distinct mapped item names carrying
at least one observation (an all-NaN item column is dropped by pivot_table:
its groups are removed by agged.dropna(how=all), and dropna(how=all,
axis=1) removes all-NaN columns), ascending (pandas sorts its columns). -/
def hk_item_cols (df : DF) (mapping : List (String × String))
    (date_col : String) : List String :=
  insertionSort (fun a b => decide (a ≤ b))
    (firstDedup ((df.rows.filter (hk_valid_row date_col)).map (mappedItemName mapping)))

/-- The index of the pivot: the distinct date values carrying at least one
observation (NaN date keys are dropped by groupby, and a date whose every
amount is NaN loses all its groups to agged.dropna(how=all)), ascending by
their string rendering (pandas sorts its index). -/
def hk_dates (df : DF) (date_col : String) : List Cell :=
  insertionSort (fun a b => decide (Cell.pyStr a ≤ Cell.pyStr b))
    (firstDedup ((df.rows.filter (hk_valid_row date_col)).map
      (fun r => Row.cellAt r date_col)))

/-- One pivot cell: aggfunc=first keeps the first non-NaN amount among the
frame rows with the given date and mapped item name; a group with no
observation is NaN. -/
def hk_first_amount (df : DF) (mapping : List (String × String))
    (date_col : String) (d : Cell) (cname : String) : Cell :=
  match df.rows.find? (fun r =>
      hk_valid_row date_col r && Row.cellAt r date_col == d &&
        mappedItemName mapping r == cname) with
  | some r => Row.cellAt r "AMOUNT"
  | none => Cell.nan

/-- One row of the reset_index wide frame: the date under REPORT_DATE
followed by one cell per item column. -/
def hk_wide_row (df : DF) (mapping : List (String × String))
    (date_col : String) (d : Cell) : Row :=
  ("REPORT_DATE", d) :: (hk_item_cols df mapping date_col).map
    (fun cn => (cn, hk_first_amount df mapping date_col d cn))

/-- The wide frame produced on the success path of convert_hk_long_to_wide. -/
def hk_wide_frame (df : DF) (sheet_type : String) (date_col : String) : DF :=
  ⟨"REPORT_DATE" :: hk_item_cols df (get_hk_column_mapping sheet_type) date_col,
   (hk_dates df date_col).map
     (hk_wide_row df (get_hk_column_mapping sheet_type) date_col)⟩

/-- convert_hk_long_to_wide from src/hk_financial_adapter.py (lines
108-191).  The pandas pivot_table(index=date_col, columns=mapped name,
values=AMOUNT, aggfunc=first) is modelled with its NaN semantics: one
output row per distinct date and one column per distinct mapped item name
among the rows with non-NaN date and amount, each cell the first non-NaN
amount with that date and mapped name (NaN when the group is empty);
reset_index plus the rename puts the date first under REPORT_DATE. -/
def convert_hk_long_to_wide (dfo : Option DF) (sheet_type : String) :
    Option DF × List (String × String) :=
  match dfo with
  | none => (none, [])
  | some df =>
    if df.rows.isEmpty then (none, [])
    else if ¬ ("STD_ITEM_NAME" ∈ df.cols ∧ "AMOUNT" ∈ df.cols) then (none, [])
    else
      match chooseDateCol df.cols with
      | none => (none, [])
      | some date_col =>
        (some (hk_wide_frame df sheet_type date_col),
         hk_chinese_name_mapping df sheet_type)

/-- get_hk_employee_count_by_year from src/hk_financial_adapter.py
(lines 503-527).  The single network fetch get_hk_employee_count is
abstracted as the parameter latest_count; the function assigns it to every
year of the requested range.  The Python dict is modelled as an ordered
association list (insertion order, distinct keys). -/
def get_hk_employee_count_by_year (latest_count : Option ℕ)
    (start_year end_year : ℤ) : List (ℤ × Option ℕ) :=
  (List.range (end_year + 1 - start_year).toNat).map
    (fun (i : ℕ) => (start_year + (i : ℤ), latest_count))

end HKAdapter

namespace SmartExtractor

/-- ASCII lowering, Python str.lower() on the ASCII/Chinese keyword data. -/
def pyLower (s : String) : String :=
  String.mk (s.toList.map Char.toLower)

/-- high_priority_keywords from src/智能_从年报提取员工数量.py (lines 80-91). -/
def high_priority_keywords : List String :=
  ["在职员工数量合计", "员工数量合计", "员工总数合计", "雇员总数合计",
   "在职员工总数", "员工总数", "雇员总数", "员工人数合计",
   "在册员工总数", "全职员工总数", "从业人员合计", "员工合计",
   "在職員工數量合計", "員工數量合計", "員工總數", "僱員總數",
   "Total number of employees", "Total employees", "Employee count total",
   "Total staff", "Total workforce", "Grand total employees"]

/-- medium_priority_keywords from the same dictionary (lines 93-98). -/
def medium_priority_keywords : List String :=
  ["员工人数", "雇员人数", "在职人员", "从业人员", "员工数",
   "Number of employees", "Staff number", "Employee count",
   "Full-time employees", "Active employees"]

/-- total_indicators from the same dictionary (lines 100-104). -/
def total_indicators : List String :=
  ["合计", "总计", "总数", "汇总", "小计", "总和",
   "Total", "total", "Sum", "Grand total", "Subtotal"]

/-- basic_employee_terms from _is_employee_related_row (line 825). -/
def basic_employee_terms : List String :=
  ["员工", "雇员", "人员", "职工", "employee", "staff", "workforce"]

/-- Keyword hit: Python (keyword in text or keyword.lower() in text_lower). -/
def kwHit (text text_lower kw : String) : Bool :=
  strContains text kw || strContains text_lower (pyLower kw)

/-- _is_employee_related_row from src/智能_从年报提取员工数量.py (lines
799-839): weighted keyword hits, match strength clamped to 1.0.
Returns (is employee related, match strength). -/
def is_employee_related_row (text : String) : Bool × ℚ :=
  let text_lower := pyLower text
  let hp := (high_priority_keywords.filter (kwHit text text_lower)).length
  let mp := (medium_priority_keywords.filter (kwHit text text_lower)).length
  let ti := (total_indicators.filter (kwHit text text_lower)).length
  let basic := (basic_employee_terms.filter
    (fun term => strContains text term || strContains text_lower term)).length
  let match_score : ℚ :=
    (2 / 5) * hp + (1 / 5) * mp + (3 / 10) * ti +
      (if 0 < basic then (1 / 10) * (basic : ℚ) else 0)
  let related := 0 < hp ∨ 0 < mp ∨ (0 < basic ∧ 0 < ti)
  (decide related, min match_score 1)

/-- _calculate_table_confidence from the same file (lines 898-918). -/
def calculate_table_confidence (row_text : String) (row_idx total_rows : ℕ) : ℚ :=
  let c1 : ℚ := 1 / 2
  let c2 := c1 + (if total_indicators.any (fun i => strContains row_text i) then 2 / 5 else 0)
  let c3 := c2 +
    (if high_priority_keywords.any (fun k => strContains row_text k) then 3 / 10
     else if medium_priority_keywords.any (fun k => strContains row_text k) then 1 / 5
     else 0)
  let c4 := c3 + (if (total_rows : ℚ) * (7 / 10) < (row_idx : ℚ) then 1 / 10 else 0)
  min c4 1

/-- _calculate_text_confidence from the same file (lines 920-937). -/
def calculate_text_confidence (line context : String) (match_strength : ℚ) : ℚ :=
  let c1 : ℚ := 2 / 5
  let c2 := c1 +
    (if total_indicators.any (fun i => strContains line i) then 2 / 5
     else if strContains line "总数" || strContains (pyLower line) "total" then 1 / 5
     else 0)
  let c3 := c2 + (if strContains context "员工" && strContains context "情况" then 1 / 5 else 0)
  let c4 := c3 + match_strength * (3 / 10)
  min c4 1

/-- The context-dependent [min_count, max_count] range chosen inside
_is_reasonable_employee_count (src/智能_从年报提取员工数量.py lines
537-552); Python if context: is false for both None and the empty string. -/
def employee_count_range (context : Option String) : ℤ × ℤ :=
  match context with
  | some ctx =>
    if ctx ≠ "" then
      if ["比亚迪", "BYD"].any (fun company => strContains ctx company) then
        ((150000 : ℤ), (200000 : ℤ))
      else if ["上市", "股份", "集团", "有限公司"].any (fun k => strContains ctx k) then
        (1000, 200000)
      else (500, 100000)
    else (500, 200000)
  | none => (500, 200000)

/-- _is_reasonable_employee_count from src/智能_从年报提取员工数量.py
(lines 527-554): reject year-like values 1990-2030 and the placeholder
values, then accept exactly when num lies in the context-dependent range. -/
def is_reasonable_employee_count (num : ℤ) (context : Option String) : Bool :=
  if 1990 ≤ num ∧ num ≤ 2030 then false
  else if num = 0 ∨ num = 9999 ∨ num = 99999 ∨ num = 999999 ∨ num = 9999999 then false
  else
    decide ((employee_count_range context).1 ≤ num ∧ num ≤ (employee_count_range context).2)

/-- EmployeeData from src/智能_从年报提取员工数量.py (lines 40-49),
restricted to the fields the table/text strategies populate. -/
structure EmployeeData where
  count : ℤ
  page_number : ℕ
  source_text : String
  confidence : ℚ
deriving DecidableEq, Repr

/-- Best-candidate update of _extract_from_structured_table: replace only
when the new count is strictly larger (or no candidate exists yet). -/
def updateBest (best : Option EmployeeData) (cand : EmployeeData) :
    Option EmployeeData :=
  match best with
  | none => some cand
  | some b => if b.count < cand.count then some cand else some b

/-- Python ' '.join(str(cell) if cell else '' for cell in row):
None and the empty string are falsy and render as ''. -/
def joinCells (row : List (Option String)) : String :=
  String.intercalate " " (row.map (fun c => c.getD ""))

/-- The per-number step of the total-row branch of
_extract_from_structured_table (lines 706-731): skip salary rows and
decimal-bearing cells, then record a confidence-0.9 candidate, replacing
the best only when the count is larger. -/
def total_row_num_step (total_row : List (Option String)) (page_num : ℕ)
    (source : String) (best : Option EmployeeData) (num : ℤ) : Option EmployeeData :=
  let tr_text := joinCells total_row
  if strContains tr_text "薪酬" || strContains tr_text "支付给员工" then best
  else if total_row.any (fun c =>
      match c with
      | some s => !s.isEmpty && (strContains s (toString num) && strContains s ".")
      | none => false) then best
  else if is_reasonable_employee_count num (some (source ++ ": 合计行")) then
    updateBest best ⟨num, page_num, source ++ ": 合计行", 9 / 10⟩
  else best

/-- The per-number step of the employee-related-row branch of
_extract_from_structured_table (lines 744-756): candidates carry
confidence 0.7 * (1 + match_strength * 0.5), with no min(..., 1.0) clamp. -/
def employee_row_num_step (row_text : String) (match_strength : ℚ)
    (page_num : ℕ) (source : String) (b : Option EmployeeData) (num : ℤ) :
    Option EmployeeData :=
  if is_reasonable_employee_count num (some row_text) then
    updateBest b
      ⟨num, page_num,
        source ++ ": " ++ String.mk (row_text.toList.take 30) ++ "...",
        (7 / 10) * (1 + match_strength * (1 / 2))⟩
  else b

/-- The per-row step of the fallback loop of _extract_from_structured_table
(lines 733-756): skip empty rows, take numbers only from employee-related
rows. -/
def table_row_step (extractNumbers : List (Option String) → List ℤ)
    (page_num : ℕ) (source : String) (best : Option EmployeeData)
    (row : List (Option String)) : Option EmployeeData :=
  if row.isEmpty then best
  else
    let row_text := joinCells row
    let rel := is_employee_related_row row_text
    if rel.1 then
      (extractNumbers row).foldl
        (employee_row_num_step row_text rel.2 page_num source) best
    else best

/-- _extract_from_structured_table from src/智能_从年报提取员工数量.py
(lines 695-757).  Table cells are None or strings; extractNumbers abstracts
the regex-driven _extract_numbers_from_row (lines 841-865).  structure_info
is represented by its only consulted field total_row_idx.  First tries the
total row (confidence 0.9), then falls back to employee-related rows. -/
def extract_from_structured_table
    (extractNumbers : List (Option String) → List ℤ)
    (table : List (List (Option String))) (page_num : ℕ) (source : String)
    (total_row_idx : ℤ) : Option EmployeeData :=
  let best1 : Option EmployeeData :=
    if 0 ≤ total_row_idx then
      (extractNumbers (table.getD total_row_idx.toNat [])).foldl
        (total_row_num_step (table.getD total_row_idx.toNat []) page_num source) none
    else none
  if best1.isSome then best1
  else table.foldl (table_row_step extractNumbers page_num source) none

end SmartExtractor


/-- Claim C5: for every data row and column name, get_value_from_row (with
return_numeric=True) returns round(float(value)/100000000, 2) — the raw yuan
figure rescaled to 亿 with two decimals — whenever the cell exists and
parses as a non-NaN float, and returns the caller-supplied default in every
other case: row is None, the column is absent, the value is NaN, or float()
raises ValueError/TypeError. -/
theorem get_value_from_row_spec (row : Option Row) (col : String) (default : PyVal) :
    (∀ r q, row = some r → r.lookup col = some (Cell.num q) →
      FinAnalysis.get_value_from_row row col default = PyVal.num (round2 (q / 100000000))) ∧
    (row = none → FinAnalysis.get_value_from_row row col default = default) ∧
    (∀ r, row = some r → r.lookup col = none →
      FinAnalysis.get_value_from_row row col default = default) ∧
    (∀ r, row = some r → r.lookup col = some Cell.nan →
      FinAnalysis.get_value_from_row row col default = default) ∧
    (∀ r v, row = some r → r.lookup col = some (Cell.s v) →
      FinAnalysis.get_value_from_row row col default = default) := by
  refine ⟨?_, ?_, ?_, ?_, ?_⟩
  · intro r q hr hl; subst hr; simp [FinAnalysis.get_value_from_row, hl]
  · intro hr; subst hr; rfl
  · intro r hr hl; subst hr; simp [FinAnalysis.get_value_from_row, hl]
  · intro r hr hl; subst hr; simp [FinAnalysis.get_value_from_row, hl]
  · intro r v hr hl; subst hr; simp [FinAnalysis.get_value_from_row, hl]

/-- Witness for get_value_from_row_spec at a concrete row: 5e9 yuan under
OPERATE_INCOME comes back as 50 (亿), and a missing column yields the
default. -/
theorem get_value_from_row_spec_witness :
    FinAnalysis.get_value_from_row (some [("OPERATE_INCOME", Cell.num 5000000000)])
      "OPERATE_INCOME" dash = PyVal.num (round2 (5000000000 / 100000000)) ∧
    FinAnalysis.get_value_from_row (some [("OPERATE_INCOME", Cell.num 5000000000)])
      "TOTAL_ASSETS" dash = dash :=
  ⟨(get_value_from_row_spec _ "OPERATE_INCOME" dash).1 _ 5000000000 rfl rfl,
   (get_value_from_row_spec _ "TOTAL_ASSETS" dash).2.2.1 _ rfl rfl⟩

/-- Claim C8: is_hk_stock symbol is True exactly when the string obtained by
deleting every occurrence of '.HK', '.SZ', '.SH' (in that order, as the
chained str.replace calls do) has length exactly 5 and consists only of
decimal digits; a bare 5-digit code is accepted, a 6-digit A-share code is
not. -/
theorem is_hk_stock_spec :
    (∀ symbol : String,
      HKAdapter.is_hk_stock symbol = true ↔
        ((pyReplace (pyReplace (pyReplace symbol ".HK" "") ".SZ" "") ".SH" "").toList.length = 5 ∧
         (pyReplace (pyReplace (pyReplace symbol ".HK" "") ".SZ" "") ".SH" "").toList.all Char.isDigit = true)) ∧
    HKAdapter.is_hk_stock "00700" = true ∧ HKAdapter.is_hk_stock "600519" = false := by
  refine ⟨?_, by decide, by decide⟩
  intro s
  unfold HKAdapter.is_hk_stock
  constructor
  · intro h
    simp only [Bool.and_eq_true, beq_iff_eq, Bool.not_eq_true'] at h
    exact ⟨h.1, h.2.2⟩
  · rintro ⟨h1, h2⟩
    simp only [Bool.and_eq_true, beq_iff_eq, Bool.not_eq_true']
    refine ⟨h1, ?_, h2⟩
    cases hl : (pyReplace (pyReplace (pyReplace s ".HK" "") ".SZ" "") ".SH" "").toList with
    | nil => rw [hl] at h1; simp at h1
    | cons a l => rfl

/-- Claim C9: get_hk_employee_count_by_year maps every year from start_year
to end_year inclusive (and no other key) to the single fetched headcount
(latest_count, None when the fetch fails); the keys are distinct, and an
empty range gives the empty dictionary. -/
theorem get_hk_employee_count_by_year_spec (latest : Option ℕ) (s e : ℤ) :
    (∀ y : ℤ,
      y ∈ (HKAdapter.get_hk_employee_count_by_year latest s e).map Prod.fst ↔
        s ≤ y ∧ y ≤ e) ∧
    (∀ p ∈ HKAdapter.get_hk_employee_count_by_year latest s e, p.2 = latest) ∧
    ((HKAdapter.get_hk_employee_count_by_year latest s e).map Prod.fst).Nodup ∧
    (e < s → HKAdapter.get_hk_employee_count_by_year latest s e = []) := by
  have hmap : (HKAdapter.get_hk_employee_count_by_year latest s e).map Prod.fst
      = (List.range (e + 1 - s).toNat).map (fun (i : ℕ) => s + (i : ℤ)) := by
    unfold HKAdapter.get_hk_employee_count_by_year
    rw [List.map_map]
    rfl
  refine ⟨?_, ?_, ?_, ?_⟩
  · intro y
    rw [hmap]
    simp only [List.mem_map, List.mem_range]
    constructor
    · rintro ⟨i, hi, rfl⟩
      omega
    · intro h
      exact ⟨(y - s).toNat, by omega, by omega⟩
  · intro p hp
    unfold HKAdapter.get_hk_employee_count_by_year at hp
    simp only [List.mem_map, List.mem_range] at hp
    obtain ⟨i, _, rfl⟩ := hp
    rfl
  · rw [hmap]
    refine List.Nodup.map ?_ (List.nodup_range _)
    intro a b hab
    dsimp at hab
    omega
  · intro h
    unfold HKAdapter.get_hk_employee_count_by_year
    have h0 : (e + 1 - s).toNat = 0 := by omega
    rw [h0]
    rfl

/-- Witness for get_hk_employee_count_by_year_spec on the range 2020-2022
with headcount 88, and on an inverted range. -/
theorem get_hk_employee_count_by_year_spec_witness :
    ((2021 : ℤ) ∈ (HKAdapter.get_hk_employee_count_by_year (some 88) 2020 2022).map Prod.fst) ∧
    (∀ p ∈ HKAdapter.get_hk_employee_count_by_year (some 88) 2020 2022, p.2 = some 88) ∧
    HKAdapter.get_hk_employee_count_by_year (some 88) 2025 2020 = [] :=
  ⟨((get_hk_employee_count_by_year_spec (some 88) 2020 2022).1 2021).mpr (by decide),
   (get_hk_employee_count_by_year_spec (some 88) 2020 2022).2.1,
   (get_hk_employee_count_by_year_spec (some 88) 2025 2020).2.2.2 (by decide)⟩

/-- Claim C10: _is_reasonable_employee_count rejects every num in
[1990, 2030] and every placeholder in 0, 9999, 99999, 999999, 9999999
regardless of context, and outside those exclusions accepts exactly when
num lies in the context-dependent [min_count, max_count] range chosen in
the function. -/
theorem is_reasonable_employee_count_spec :
    (∀ (num : ℤ) (context : Option String), 1990 ≤ num → num ≤ 2030 →
      SmartExtractor.is_reasonable_employee_count num context = false) ∧
    (∀ (num : ℤ) (context : Option String),
      num = 0 ∨ num = 9999 ∨ num = 99999 ∨ num = 999999 ∨ num = 9999999 →
      SmartExtractor.is_reasonable_employee_count num context = false) ∧
    (∀ (num : ℤ) (context : Option String),
      ¬ (1990 ≤ num ∧ num ≤ 2030) →
      ¬ (num = 0 ∨ num = 9999 ∨ num = 99999 ∨ num = 999999 ∨ num = 9999999) →
      (SmartExtractor.is_reasonable_employee_count num context = true ↔
        (SmartExtractor.employee_count_range context).1 ≤ num ∧
          num ≤ (SmartExtractor.employee_count_range context).2)) := by
  unfold SmartExtractor.is_reasonable_employee_count
  refine ⟨?_, ?_, ?_⟩
  · intro num context h1 h2
    simp [h1, h2]
  · intro num context h
    split_ifs <;> simp_all
  · intro num context h1 h2
    simp [h1, h2]

/-- Witness for is_reasonable_employee_count_spec: a year is rejected, the
placeholder 9999 is rejected, and 12345 in a plain context is accepted. -/
theorem is_reasonable_employee_count_spec_witness :
    SmartExtractor.is_reasonable_employee_count 2024 (some "比亚迪股份有限公司") = false ∧
    SmartExtractor.is_reasonable_employee_count 9999 none = false ∧
    SmartExtractor.is_reasonable_employee_count 12345 (some "员工情况") = true :=
  ⟨is_reasonable_employee_count_spec.1 2024 _ (by decide) (by decide),
   is_reasonable_employee_count_spec.2.1 9999 none (by decide),
   (is_reasonable_employee_count_spec.2.2 12345 (some "员工情况") (by decide) (by decide)).mpr
     (by decide)⟩

/-- Claim C4: the 最近5年 (and 最近3年) compound annual growth rate cell of
calculate_growth_metrics equals round((pow(v_end/v_start, 1/offset) - 1) * 100, 2)
exactly when both endpoint values exist and both are strictly positive, and
keeps "-" in every other case (either endpoint missing, zero, or negative);
stated for any column and offset, hence for revenue/parent net profit with
offsets 5 and 3, over an arbitrary power function standing in for float pow. -/
theorem growth_cagr_spec (powFn : ℚ → ℚ → ℚ) (profit : Option DF) (col : String)
    (s e : ℤ) (offset : ℕ) :
    (∀ qe qs, FinAnalysis.year_metric_value profit col s e e = some qe →
      FinAnalysis.year_metric_value profit col s e (e - (offset : ℤ)) = some qs →
      0 < qs → 0 < qe →
      FinAnalysis.growth_cagr_cell powFn profit col s e offset
        = PyVal.num (round2 ((powFn (qe / qs) (1 / (offset : ℚ)) - 1) * 100))) ∧
    (∀ qe qs, FinAnalysis.year_metric_value profit col s e e = some qe →
      FinAnalysis.year_metric_value profit col s e (e - (offset : ℤ)) = some qs →
      ¬ (0 < qs ∧ 0 < qe) →
      FinAnalysis.growth_cagr_cell powFn profit col s e offset = dash) ∧
    ((FinAnalysis.year_metric_value profit col s e e = none ∨
      FinAnalysis.year_metric_value profit col s e (e - (offset : ℤ)) = none) →
      FinAnalysis.growth_cagr_cell powFn profit col s e offset = dash) := by
  refine ⟨?_, ?_, ?_⟩
  · intro qe qs h1 h2 h3 h4
    simp [FinAnalysis.growth_cagr_cell, FinAnalysis.cagr_cell, h1, h2, h3, h4,
      div_pos h4 h3]
  · intro qe qs h1 h2 h3
    simp [FinAnalysis.growth_cagr_cell, FinAnalysis.cagr_cell, h1, h2, h3]
  · intro h
    rcases h with h | h <;> simp [FinAnalysis.growth_cagr_cell, FinAnalysis.cagr_cell, h]

/-- Witness for growth_cagr_spec: revenue 1亿 in 2019 and 2亿 in 2024 give,
for any power function, the rounded (powFn 2 (1/5) - 1) * 100 cell. -/
theorem growth_cagr_spec_witness :
    FinAnalysis.growth_cagr_cell (fun a _ => a)
      (some ⟨["REPORT_DATE", "OPERATE_INCOME"],
        [[("REPORT_DATE", Cell.s "2019-12-31"), ("OPERATE_INCOME", Cell.num 100000000)],
         [("REPORT_DATE", Cell.s "2024-12-31"), ("OPERATE_INCOME", Cell.num 200000000)]]⟩)
      "OPERATE_INCOME" 2019 2024 5 = PyVal.num 100 := by
  have h := (growth_cagr_spec (fun a _ => a)
      (some ⟨["REPORT_DATE", "OPERATE_INCOME"],
        [[("REPORT_DATE", Cell.s "2019-12-31"), ("OPERATE_INCOME", Cell.num 100000000)],
         [("REPORT_DATE", Cell.s "2024-12-31"), ("OPERATE_INCOME", Cell.num 200000000)]]⟩)
      "OPERATE_INCOME" 2019 2024 5).1 2 1 (by decide) (by decide) (by decide) (by decide)
  rw [h]
  decide

/-- Claim C6: extract_year_data (with the default REPORT_DATE column-name
argument) picks the first column whose name contains REPORT_DATE or 报告期,
returns the last row whose date cell as a string contains both str(year)
and 12-31, and returns None exactly when the frame is None or empty, no
column name matches, or no row matches. -/
theorem extract_year_data_spec (df : Option DF) (y : ℤ) :
    (df = none → FinAnalysis.extract_year_data df y "REPORT_DATE" = none) ∧
    (∀ d, df = some d → d.rows = [] →
      FinAnalysis.extract_year_data df y "REPORT_DATE" = none) ∧
    (∀ d, df = some d →
      d.cols.find? (fun c => strContains c "REPORT_DATE" || strContains c "报告期") = none →
      FinAnalysis.extract_year_data df y "REPORT_DATE" = none) ∧
    (∀ d dc, df = some d → d.rows ≠ [] →
      d.cols.find? (fun c => strContains c "REPORT_DATE" || strContains c "报告期") = some dc →
      FinAnalysis.extract_year_data df y "REPORT_DATE" =
        (d.rows.filter (fun r =>
          strContains (Cell.pyStr (Row.cellAt r dc)) (toString y) &&
          strContains (Cell.pyStr (Row.cellAt r dc)) "12-31")).getLast?) ∧
    (FinAnalysis.extract_year_data df y "REPORT_DATE" = none ↔
      df = none ∨ ∃ d, df = some d ∧
        (d.rows = [] ∨
         d.cols.find? (fun c => strContains c "REPORT_DATE" || strContains c "报告期") = none ∨
         ∃ dc, d.cols.find? (fun c => strContains c "REPORT_DATE" || strContains c "报告期") = some dc ∧
           (d.rows.filter (fun r =>
             strContains (Cell.pyStr (Row.cellAt r dc)) (toString y) &&
             strContains (Cell.pyStr (Row.cellAt r dc)) "12-31")) = [])) := by
  refine ⟨?_, ?_, ?_, ?_, ?_⟩
  · rintro rfl; rfl
  · rintro d rfl hrows
    simp [FinAnalysis.extract_year_data, hrows]
  · rintro d rfl hfind
    by_cases hr : d.rows.isEmpty <;> simp [FinAnalysis.extract_year_data, hr, hfind]
  · rintro d dc rfl hrows hfind
    have hr : d.rows.isEmpty = false := by
      cases hxs : d.rows with
      | nil => exact absurd hxs hrows
      | cons a l => rfl
    simp [FinAnalysis.extract_year_data, hr, hfind]
  · cases df with
    | none => simp [FinAnalysis.extract_year_data]
    | some d =>
      by_cases hr : d.rows.isEmpty
      · simp [FinAnalysis.extract_year_data, hr, List.isEmpty_iff.mp hr]
      · cases hfind : d.cols.find?
            (fun c => strContains c "REPORT_DATE" || strContains c "报告期") with
        | none =>
          have hres : FinAnalysis.extract_year_data (some d) y "REPORT_DATE" = none := by
            simp [FinAnalysis.extract_year_data, hr, hfind]
          rw [hres]
          exact iff_of_true rfl (Or.inr ⟨d, rfl, Or.inr (Or.inl hfind)⟩)
        | some dc =>
          have hres : FinAnalysis.extract_year_data (some d) y "REPORT_DATE" =
              (d.rows.filter (fun r =>
                strContains (Cell.pyStr (Row.cellAt r dc)) (toString y) &&
                strContains (Cell.pyStr (Row.cellAt r dc)) "12-31")).getLast? := by
            simp [FinAnalysis.extract_year_data, hr, hfind]
          rw [hres, List.getLast?_eq_none_iff]
          constructor
          · intro hnil
            exact Or.inr ⟨d, rfl, Or.inr (Or.inr ⟨dc, hfind, hnil⟩)⟩
          · rintro (h | ⟨d2, hd2, h⟩)
            · exact absurd h (by simp)
            · obtain rfl : d2 = d := by injection hd2.symm
              rcases h with h | h | ⟨dc2, hfind2, hfil⟩
              · exact absurd h (List.isEmpty_iff.not.mp hr)
              · rw [hfind] at h; exact absurd h (by simp)
              · rw [hfind] at hfind2
                obtain rfl : dc2 = dc := by injection hfind2.symm
                exact hfil

/-- Witness for extract_year_data_spec: a matching frame returns the last
2024-12-31 row, and a frame without a date column returns None. -/
theorem extract_year_data_spec_witness :
    FinAnalysis.extract_year_data
      (some ⟨["REPORT_DATE", "X"],
        [[("REPORT_DATE", Cell.s "2024-12-31"), ("X", Cell.num 1)],
         [("REPORT_DATE", Cell.s "2024-12-31"), ("X", Cell.num 2)]]⟩) 2024 "REPORT_DATE"
      = some [("REPORT_DATE", Cell.s "2024-12-31"), ("X", Cell.num 2)] ∧
    FinAnalysis.extract_year_data
      (some ⟨["Y"], [[("Y", Cell.num 1)]]⟩) 2024 "REPORT_DATE" = none := by
  constructor
  · have h := (extract_year_data_spec
      (some ⟨["REPORT_DATE", "X"],
        [[("REPORT_DATE", Cell.s "2024-12-31"), ("X", Cell.num 1)],
         [("REPORT_DATE", Cell.s "2024-12-31"), ("X", Cell.num 2)]]⟩) 2024).2.2.2.1
      _ "REPORT_DATE" rfl (by decide) (by decide)
    rw [h]
    decide
  · exact (extract_year_data_spec (some ⟨["Y"], [[("Y", Cell.num 1)]]⟩) 2024).2.2.1
      _ rfl (by decide)

/-- Claim C3 (amended): in calculate_revenue_metrics, once the year's
profit and cash-flow rows are both present and revenue (OPERATE_INCOME)
and parent net profit (PARENT_NETPROFIT) parse, the free-cash-flow cell is
round(NETCASH_OPERATE - CONSTRUCT_LONG_ASSET, 2) (both in 亿) whenever both
cash values are present, and "-" whenever either is missing.  (The claim as
frozen omitted the revenue / parent-net-profit precondition; the loop body
continues past the year, leaving the cell at "-", when either is missing.) -/
theorem revenue_fcf_amended (pr cr : Row) (rev pnp : ℚ)
    (hrev : FinAnalysis.get_value_from_row (some pr) "OPERATE_INCOME" dash = PyVal.num rev)
    (hpnp : FinAnalysis.get_value_from_row (some pr) "PARENT_NETPROFIT" dash = PyVal.num pnp) :
    (∀ oc cx,
      FinAnalysis.get_value_from_row (some cr) "NETCASH_OPERATE" dash = PyVal.num oc →
      FinAnalysis.get_value_from_row (some cr) "CONSTRUCT_LONG_ASSET" dash = PyVal.num cx →
      (FinAnalysis.revenue_year_cells (some pr) (some cr)).getD 6 dash
        = PyVal.num (round2 (oc - cx))) ∧
    ((FinAnalysis.get_value_from_row (some cr) "NETCASH_OPERATE" dash = dash ∨
      FinAnalysis.get_value_from_row (some cr) "CONSTRUCT_LONG_ASSET" dash = dash) →
      (FinAnalysis.revenue_year_cells (some pr) (some cr)).getD 6 dash = dash) := by
  constructor
  · intro oc cx h1 h2
    simp only [dash] at hrev hpnp h1 h2
    simp [FinAnalysis.revenue_year_cells, dash, hrev, hpnp, h1, h2, PyVal.toQ,
      List.getD_cons_succ, List.getD_cons_zero]
  · intro h
    rcases h with h1 | h1 <;>
    · simp only [dash] at hrev hpnp h1
      simp [FinAnalysis.revenue_year_cells, dash, hrev, hpnp, h1,
        List.getD_cons_succ, List.getD_cons_zero]

/-- Witness for revenue_fcf_amended: net operating cash 3亿 and CAPEX 1亿
give a free-cash-flow cell of 2亿; a missing CAPEX column gives "-". -/
theorem revenue_fcf_amended_witness :
    (FinAnalysis.revenue_year_cells
      (some [("OPERATE_INCOME", Cell.num 400000000), ("PARENT_NETPROFIT", Cell.num 100000000)])
      (some [("NETCASH_OPERATE", Cell.num 300000000),
             ("CONSTRUCT_LONG_ASSET", Cell.num 100000000)])).getD 6 dash
      = PyVal.num (round2 (3 - 1)) ∧
    (FinAnalysis.revenue_year_cells
      (some [("OPERATE_INCOME", Cell.num 400000000), ("PARENT_NETPROFIT", Cell.num 100000000)])
      (some [("NETCASH_OPERATE", Cell.num 300000000)])).getD 6 dash = dash :=
  ⟨(revenue_fcf_amended _ _ 4 1 (by decide) (by decide)).1 3 1 (by decide) (by decide),
   (revenue_fcf_amended _ _ 4 1 (by decide) (by decide)).2 (Or.inr (by decide))⟩

/-- Counterexample to claim C3 as frozen: a year whose cash-flow row has
both NETCASH_OPERATE (3亿) and CONSTRUCT_LONG_ASSET (1亿) present but whose
profit row lacks OPERATE_INCOME shows a free-cash-flow cell of "-", not
round(3 - 1, 2): the claim's "whenever both values are present" fails
without the revenue / parent-net-profit precondition. -/
theorem revenue_fcf_counterexample :
    FinAnalysis.get_value_from_row
      (some [("NETCASH_OPERATE", Cell.num 300000000),
             ("CONSTRUCT_LONG_ASSET", Cell.num 100000000)]) "NETCASH_OPERATE" dash
      = PyVal.num 3 ∧
    FinAnalysis.get_value_from_row
      (some [("NETCASH_OPERATE", Cell.num 300000000),
             ("CONSTRUCT_LONG_ASSET", Cell.num 100000000)]) "CONSTRUCT_LONG_ASSET" dash
      = PyVal.num 1 ∧
    (FinAnalysis.revenue_year_cells
      (some [("PARENT_NETPROFIT", Cell.num 100000000)])
      (some [("NETCASH_OPERATE", Cell.num 300000000),
             ("CONSTRUCT_LONG_ASSET", Cell.num 100000000)])).getD 6 dash = dash ∧
    dash ≠ PyVal.num (round2 ((3 : ℚ) - 1)) := by
  refine ⟨by decide, by decide, by decide, by decide⟩

/-- Claim C2 evaluation at the failing input (code_bug): the ROIC cell of
calculate_roi_metrics never takes the commented FINANCE_EXPENSE fallback,
because FE_INTEREST_EXPENSE is fetched with default 0, which is not the
string "-" the fallback tests for.  With OPERATE_PROFIT 1亿, OPERATE_INCOME
4亿, PARENT_NETPROFIT 1亿, FINANCE_EXPENSE -2亿 (FE_INTEREST_EXPENSE
absent), TOTAL_ASSETS 2亿, TOTAL_PARENT_EQUITY 1亿, the code reports
ROIC = round(1 / 2 * 100, 2) = 50, whereas the claim's formula
(interest expense = abs(FINANCE_EXPENSE) = 2) predicts
round((1 + 2) / 2 * 100, 2) = 150. -/
theorem roi_roic_dead_fallback :
    FinAnalysis.get_value_from_row
      (some [("OPERATE_PROFIT", Cell.num 100000000), ("OPERATE_INCOME", Cell.num 400000000),
             ("PARENT_NETPROFIT", Cell.num 100000000), ("FINANCE_EXPENSE", Cell.num (-200000000))])
      "FINANCE_EXPENSE" (PyVal.num 0) = PyVal.num (-2) ∧
    FinAnalysis.roi_interest_expense
      (some [("OPERATE_PROFIT", Cell.num 100000000), ("OPERATE_INCOME", Cell.num 400000000),
             ("PARENT_NETPROFIT", Cell.num 100000000), ("FINANCE_EXPENSE", Cell.num (-200000000))])
      = 0 ∧
    (FinAnalysis.roi_year_cells
      (some [("TOTAL_ASSETS", Cell.num 200000000), ("TOTAL_PARENT_EQUITY", Cell.num 100000000)])
      (some [("OPERATE_PROFIT", Cell.num 100000000), ("OPERATE_INCOME", Cell.num 400000000),
             ("PARENT_NETPROFIT", Cell.num 100000000), ("FINANCE_EXPENSE", Cell.num (-200000000))])).getD
      2 dash = PyVal.num 50 ∧
    PyVal.num 50 ≠ PyVal.num (round2 (round2 ((1 : ℚ) + |(-2 : ℚ)|) /
      FinAnalysis.roi_invested_capital
        (some [("TOTAL_ASSETS", Cell.num 200000000), ("TOTAL_PARENT_EQUITY", Cell.num 100000000)]) 2
      * 100)) := by
  refine ⟨by decide, by decide, by decide, by decide⟩

/-- If every candidate an updateBest step can install satisfies P, the
resulting best candidate satisfies P. -/
theorem updateBest_bound {P : SmartExtractor.EmployeeData → Prop}
    {best : Option SmartExtractor.EmployeeData} {cand : SmartExtractor.EmployeeData}
    (hb : ∀ c, best = some c → P c) (hc : P cand) :
    ∀ c, SmartExtractor.updateBest best cand = some c → P c := by
  intro c h
  unfold SmartExtractor.updateBest at h
  cases best with
  | none =>
    injection h with h
    exact h ▸ hc
  | some b =>
    dsimp only at h
    by_cases hlt : b.count < cand.count
    · rw [if_pos hlt] at h
      injection h with h
      exact h ▸ hc
    · rw [if_neg hlt] at h
      injection h with h
      exact h ▸ hb b rfl

/-- A foldl whose step preserves an invariant of the optional best
candidate preserves it from the initial accumulator. -/
theorem foldl_best_bound {α : Type} {P : SmartExtractor.EmployeeData → Prop}
    (f : Option SmartExtractor.EmployeeData → α → Option SmartExtractor.EmployeeData)
    (hf : ∀ b a c, (∀ c0, b = some c0 → P c0) → f b a = some c → P c) :
    ∀ (l : List α) (init : Option SmartExtractor.EmployeeData),
      (∀ c0, init = some c0 → P c0) → ∀ c, l.foldl f init = some c → P c := by
  intro l
  induction l with
  | nil =>
    intro init hi c hc
    exact hi c hc
  | cons a as ih =>
    intro init hi c hc
    exact ih (f init a) (fun c0 h0 => hf init a c0 hi h0) c hc

/-- The match strength returned by _is_employee_related_row is clamped
into [0, 1]. -/
theorem is_employee_related_row_strength_bounds (text : String) :
    0 ≤ (SmartExtractor.is_employee_related_row text).2 ∧
      (SmartExtractor.is_employee_related_row text).2 ≤ 1 := by
  unfold SmartExtractor.is_employee_related_row
  refine ⟨le_min ?_ zero_le_one, min_le_right _ _⟩
  refine add_nonneg (add_nonneg (add_nonneg ?_ ?_) ?_) ?_
  · positivity
  · positivity
  · positivity
  · split_ifs <;> positivity

/-- The total-row step only installs candidates of confidence 0.9, hence
preserves the [0, 21/20] confidence bound. -/
theorem total_row_num_step_bound (tr : List (Option String)) (pn : ℕ) (src : String)
    (b : Option SmartExtractor.EmployeeData) (a : ℤ) (c : SmartExtractor.EmployeeData)
    (hb : ∀ c0, b = some c0 → 0 ≤ c0.confidence ∧ c0.confidence ≤ 21 / 20)
    (h : SmartExtractor.total_row_num_step tr pn src b a = some c) :
    0 ≤ c.confidence ∧ c.confidence ≤ 21 / 20 := by
  simp only [SmartExtractor.total_row_num_step] at h
  split at h
  · exact hb c h
  split at h
  · exact hb c h
  split at h
  · exact updateBest_bound hb (by constructor <;> norm_num) c h
  · exact hb c h

/-- The employee-related-row step installs candidates of confidence
0.7 * (1 + match_strength / 2), which lies in [0, 21/20] whenever the
match strength lies in [0, 1]. -/
theorem employee_row_num_step_bound (rt : String) (ms : ℚ) (pn : ℕ) (src : String)
    (b : Option SmartExtractor.EmployeeData) (a : ℤ) (c : SmartExtractor.EmployeeData)
    (hms : 0 ≤ ms ∧ ms ≤ 1)
    (hb : ∀ c0, b = some c0 → 0 ≤ c0.confidence ∧ c0.confidence ≤ 21 / 20)
    (h : SmartExtractor.employee_row_num_step rt ms pn src b a = some c) :
    0 ≤ c.confidence ∧ c.confidence ≤ 21 / 20 := by
  simp only [SmartExtractor.employee_row_num_step] at h
  split at h
  · refine updateBest_bound hb ⟨?_, ?_⟩ c h
    · nlinarith [hms.1, hms.2]
    · nlinarith [hms.1, hms.2]
  · exact hb c h

/-- The fallback per-row step preserves the [0, 21/20] confidence bound. -/
theorem table_row_step_bound (eN : List (Option String) → List ℤ) (pn : ℕ) (src : String)
    (b : Option SmartExtractor.EmployeeData) (row : List (Option String))
    (c : SmartExtractor.EmployeeData)
    (hb : ∀ c0, b = some c0 → 0 ≤ c0.confidence ∧ c0.confidence ≤ 21 / 20)
    (h : SmartExtractor.table_row_step eN pn src b row = some c) :
    0 ≤ c.confidence ∧ c.confidence ≤ 21 / 20 := by
  simp only [SmartExtractor.table_row_step] at h
  split at h
  · exact hb c h
  · split at h
    · refine foldl_best_bound _ ?_ _ _ hb c h
      intro b1 a1 c1 hb1 h1
      exact employee_row_num_step_bound _ _ _ _ _ _ _
        (is_employee_related_row_strength_bounds _) hb1 h1
    · exact hb c h

/-- Claim C7 (amended): every candidate produced by the table-analysis
strategy _extract_from_structured_table has confidence in [0, 1.05]: the
total-row branch emits 0.9 and the employee-related-row branch emits
0.7 * (1 + match_strength * 0.5) ∈ [0.7, 1.05], the one candidate
confidence in the extractor not clamped by min(..., 1.0); the helper
scorers _calculate_text_confidence (the sole confidence source of the
text-analysis strategy) and _calculate_table_confidence do clamp into
[0, 1], as does the match strength of _is_employee_related_row.  (The
frozen claim's interval [0, 1] fails for the non-total-row table branch.) -/
theorem smart_confidence_bounds :
    (∀ (extractNumbers : List (Option String) → List ℤ)
       (table : List (List (Option String))) (page_num : ℕ) (source : String)
       (total_row_idx : ℤ) (c : SmartExtractor.EmployeeData),
       SmartExtractor.extract_from_structured_table extractNumbers table page_num source
         total_row_idx = some c →
       0 ≤ c.confidence ∧ c.confidence ≤ 21 / 20) ∧
    (∀ text, 0 ≤ (SmartExtractor.is_employee_related_row text).2 ∧
       (SmartExtractor.is_employee_related_row text).2 ≤ 1) ∧
    (∀ line context ms, 0 ≤ ms →
       0 ≤ SmartExtractor.calculate_text_confidence line context ms ∧
       SmartExtractor.calculate_text_confidence line context ms ≤ 1) ∧
    (∀ row_text row_idx total_rows,
       0 ≤ SmartExtractor.calculate_table_confidence row_text row_idx total_rows ∧
       SmartExtractor.calculate_table_confidence row_text row_idx total_rows ≤ 1) := by
  refine ⟨?_, is_employee_related_row_strength_bounds, ?_, ?_⟩
  · intro eN table pn src idx c h
    simp only [SmartExtractor.extract_from_structured_table] at h
    by_cases hidx : 0 ≤ idx
    · rw [if_pos hidx] at h
      by_cases hs : ((eN (table.getD idx.toNat [])).foldl
          (SmartExtractor.total_row_num_step (table.getD idx.toNat []) pn src) none).isSome
      · rw [if_pos hs] at h
        exact foldl_best_bound _
          (fun b a c0 hb h0 => total_row_num_step_bound _ _ _ _ _ _ hb h0)
          _ _ (fun c0 h0 => Option.noConfusion h0) c h
      · rw [if_neg hs] at h
        exact foldl_best_bound _
          (fun b a c0 hb h0 => table_row_step_bound _ _ _ _ _ _ hb h0)
          _ _ (fun c0 h0 => Option.noConfusion h0) c h
    · rw [if_neg hidx] at h
      simp only [Option.isSome_none, Bool.false_eq_true, if_false] at h
      exact foldl_best_bound _
        (fun b a c0 hb h0 => table_row_step_bound _ _ _ _ _ _ hb h0)
        _ _ (fun c0 h0 => Option.noConfusion h0) c h
  · intro line context ms hms
    unfold SmartExtractor.calculate_text_confidence
    refine ⟨le_min ?_ zero_le_one, min_le_right _ _⟩
    refine add_nonneg (add_nonneg (add_nonneg ?_ ?_) ?_) ?_
    · positivity
    · split_ifs <;> positivity
    · split_ifs <;> positivity
    · positivity
  · intro row_text row_idx total_rows
    unfold SmartExtractor.calculate_table_confidence
    refine ⟨le_min ?_ zero_le_one, min_le_right _ _⟩
    refine add_nonneg (add_nonneg (add_nonneg ?_ ?_) ?_) ?_
    · positivity
    · split_ifs <;> positivity
    · split_ifs <;> positivity
    · split_ifs <;> positivity

/-- Counterexample to claim C7 as frozen: on a one-row table whose row text
在职员工数量合计 12345 has clamped match strength 1.0, with no total row
(total_row_idx = -1), the table-analysis strategy produces a candidate of
confidence 0.7 * (1 + 1.0 * 0.5) = 1.05 ∉ [0, 1].  The number list
[123, 45, 12345, 12345] is what the regex chain of
_extract_numbers_from_row yields on the cells of this row. -/
theorem smart_confidence_counterexample :
    SmartExtractor.extract_from_structured_table (fun _ => [123, 45, 12345, 12345])
      [[some "在职员工数量合计", some "12345"]] 3 "表格" (-1)
      = some ⟨12345, 3, "表格: 在职员工数量合计 12345...", 21 / 20⟩ ∧
    ¬ ((21 / 20 : ℚ) ≤ 1) := by
  refine ⟨by decide, by decide⟩

/-- Witness for smart_confidence_bounds at the concrete candidate above:
its confidence satisfies the amended bounds. -/
theorem smart_confidence_bounds_witness :
    0 ≤ (SmartExtractor.EmployeeData.mk 12345 3 "表格: 在职员工数量合计 12345..."
        (21 / 20)).confidence ∧
      (SmartExtractor.EmployeeData.mk 12345 3 "表格: 在职员工数量合计 12345..."
        (21 / 20)).confidence ≤ 21 / 20 :=
  smart_confidence_bounds.1 (fun _ => [123, 45, 12345, 12345])
    [[some "在职员工数量合计", some "12345"]] 3 "表格" (-1)
    (SmartExtractor.EmployeeData.mk 12345 3 "表格: 在职员工数量合计 12345..." (21 / 20))
    (by decide)

/-- Membership in HKAdapter.dedupAux: in the remaining list and not already seen. -/
theorem mem_dedupAux {α : Type} [DecidableEq α] (l : List α) :
    ∀ (seen : List α) (a : α), a ∈ HKAdapter.dedupAux seen l ↔ a ∈ l ∧ a ∉ seen := by
  induction l with
  | nil =>
    intro seen a
    simp [HKAdapter.dedupAux]
  | cons b rest ih =>
    intro seen a
    by_cases hb : b ∈ seen
    · rw [HKAdapter.dedupAux, if_pos hb, ih]
      constructor
      · rintro ⟨h1, h2⟩
        exact ⟨List.mem_cons_of_mem _ h1, h2⟩
      · rintro ⟨h1, h2⟩
        rcases List.mem_cons.mp h1 with rfl | h1
        · exact absurd hb h2
        · exact ⟨h1, h2⟩
    · rw [HKAdapter.dedupAux, if_neg hb]
      constructor
      · intro h
        rcases List.mem_cons.mp h with rfl | h
        · exact ⟨List.mem_cons_self _ _, hb⟩
        · rw [ih] at h
          refine ⟨List.mem_cons_of_mem _ h.1, fun hs => h.2 (List.mem_cons_of_mem _ hs)⟩
      · rintro ⟨h1, h2⟩
        rcases List.mem_cons.mp h1 with rfl | h1
        · exact List.mem_cons_self _ _
        · by_cases hab : a = b
          · exact hab ▸ List.mem_cons_self _ _
          · refine List.mem_cons_of_mem _ ((ih _ a).mpr ⟨h1, ?_⟩)
            intro hs
            rcases List.mem_cons.mp hs with h | h
            · exact hab h
            · exact h2 h

/-- HKAdapter.dedupAux produces a duplicate-free list. -/
theorem nodup_dedupAux {α : Type} [DecidableEq α] (l : List α) :
    ∀ seen : List α, (HKAdapter.dedupAux seen l).Nodup := by
  induction l with
  | nil =>
    intro seen
    simp [HKAdapter.dedupAux]
  | cons b rest ih =>
    intro seen
    by_cases hb : b ∈ seen
    · rw [HKAdapter.dedupAux, if_pos hb]
      exact ih seen
    · rw [HKAdapter.dedupAux, if_neg hb]
      refine List.Nodup.cons ?_ (ih (b :: seen))
      intro hmem
      exact ((mem_dedupAux rest (b :: seen) b).mp hmem).2 (List.mem_cons_self _ _)

/-- HKAdapter.firstDedup keeps exactly the elements of the list. -/
theorem mem_firstDedup {α : Type} [DecidableEq α] (l : List α) (a : α) :
    a ∈ HKAdapter.firstDedup l ↔ a ∈ l := by
  rw [HKAdapter.firstDedup, mem_dedupAux]
  simp

/-- HKAdapter.firstDedup is duplicate-free. -/
theorem nodup_firstDedup {α : Type} [DecidableEq α] (l : List α) :
    (HKAdapter.firstDedup l).Nodup :=
  nodup_dedupAux l []

/-- HKAdapter.insertLe inserts the element, permuting a cons. -/
theorem insertLe_perm {α : Type} (le : α → α → Bool) (a : α) (l : List α) :
    List.Perm (HKAdapter.insertLe le a l) (a :: l) := by
  induction l with
  | nil => rfl
  | cons b bs ih =>
    rw [HKAdapter.insertLe]
    by_cases h : le a b = true
    · rw [if_pos h]
    · rw [if_neg h]
      exact (ih.cons b).trans (List.Perm.swap a b bs)

/-- Insertion sort permutes its input. -/
theorem insertionSort_perm {α : Type} (le : α → α → Bool) (l : List α) :
    List.Perm (HKAdapter.insertionSort le l) l := by
  induction l with
  | nil => rfl
  | cons a as ih =>
    exact (insertLe_perm le a (HKAdapter.insertionSort le as)).trans (ih.cons a)

/-- Looking up a key of a self-tabulated association list yields the
tabulated value. -/
theorem lookup_map_self {β : Type} (f : String → β) (items : List String)
    (c : String) (hc : c ∈ items) :
    List.lookup c (items.map (fun x => (x, f x))) = some (f c) := by
  induction items with
  | nil => cases hc
  | cons x xs ih =>
    rcases List.mem_cons.mp hc with rfl | hcx
    · simp [List.lookup]
    · by_cases hx : c = x
      · subst hx
        simp [List.lookup]
      · rw [List.map_cons, List.lookup]
        have : (c == x) = false := beq_eq_false_iff_ne.mpr hx
        rw [this]
        exact ih hcx

/-- The REPORT_DATE cell of a constructed wide row is the pivot date. -/
theorem cellAt_hk_wide_row_date (df : DF) (mapping : List (String × String))
    (date_col : String) (d : Cell) :
    Row.cellAt (HKAdapter.hk_wide_row df mapping date_col d) "REPORT_DATE" = d := by
  simp [HKAdapter.hk_wide_row, Row.cellAt, List.lookup]

/-- An item cell of a constructed wide row is the first-amount cell. -/
theorem cellAt_hk_wide_row_item (df : DF) (mapping : List (String × String))
    (date_col : String) (d : Cell) (cname : String)
    (hne : cname ≠ "REPORT_DATE")
    (hc : cname ∈ HKAdapter.hk_item_cols df mapping date_col) :
    Row.cellAt (HKAdapter.hk_wide_row df mapping date_col d) cname
      = HKAdapter.hk_first_amount df mapping date_col d cname := by
  have hbeq : (cname == "REPORT_DATE") = false := beq_eq_false_iff_ne.mpr hne
  rw [HKAdapter.hk_wide_row, Row.cellAt]
  rw [List.lookup, hbeq,
    lookup_map_self (HKAdapter.hk_first_amount df mapping date_col d) _ _ hc]
  rfl

/-- Unfolding of the observation predicate: non-NaN date key and non-NaN
amount. -/
theorem hk_valid_row_eq (date_col : String) (r : Row) :
    HKAdapter.hk_valid_row date_col r = true ↔
      Row.cellAt r date_col ≠ Cell.nan ∧ (Row.cellAt r "AMOUNT").isNum = true := by
  rw [HKAdapter.hk_valid_row, Bool.and_eq_true, Bool.not_eq_true']
  exact and_congr_left (fun _ => beq_eq_false_iff_ne)

/-- Membership in the pivot's item columns is membership among the mapped
item names of the frame's observation rows. -/
theorem mem_hk_item_cols (df : DF) (mapping : List (String × String))
    (date_col : String) (cname : String) :
    cname ∈ HKAdapter.hk_item_cols df mapping date_col ↔
      ∃ r ∈ df.rows, HKAdapter.hk_valid_row date_col r = true ∧
        HKAdapter.mappedItemName mapping r = cname := by
  rw [HKAdapter.hk_item_cols,
    (insertionSort_perm _ _).mem_iff, mem_firstDedup, List.mem_map]
  constructor
  · rintro ⟨r, hr, rfl⟩
    rw [List.mem_filter] at hr
    exact ⟨r, hr.1, hr.2, rfl⟩
  · rintro ⟨r, hr, hv, rfl⟩
    exact ⟨r, List.mem_filter.mpr ⟨hr, hv⟩, rfl⟩

/-- Membership in the pivot's index is membership among the date values of
the frame's observation rows. -/
theorem mem_hk_dates (df : DF) (date_col : String) (d : Cell) :
    d ∈ HKAdapter.hk_dates df date_col ↔
      ∃ r ∈ df.rows, HKAdapter.hk_valid_row date_col r = true ∧
        Row.cellAt r date_col = d := by
  rw [HKAdapter.hk_dates, (insertionSort_perm _ _).mem_iff, mem_firstDedup, List.mem_map]
  constructor
  · rintro ⟨r, hr, rfl⟩
    rw [List.mem_filter] at hr
    exact ⟨r, hr.1, hr.2, rfl⟩
  · rintro ⟨r, hr, hv, rfl⟩
    exact ⟨r, List.mem_filter.mpr ⟨hr, hv⟩, rfl⟩

/-- The pivot's item columns are duplicate-free. -/
theorem nodup_hk_item_cols (df : DF) (mapping : List (String × String))
    (date_col : String) :
    (HKAdapter.hk_item_cols df mapping date_col).Nodup :=
  ((insertionSort_perm _ _).nodup_iff).mpr (nodup_firstDedup _)

/-- The pivot's index is duplicate-free. -/
theorem nodup_hk_dates (df : DF) (date_col : String) :
    (HKAdapter.hk_dates df date_col).Nodup :=
  ((insertionSort_perm _ _).nodup_iff).mpr (nodup_firstDedup _)


/-- Claim C1: for a non-empty HK long-format frame with STD_ITEM_NAME,
AMOUNT and one of the date columns, convert_hk_long_to_wide returns the
pandas pivot: one row per report date and one column per item carrying at
least one observation (a row with non-NaN date and non-NaN amount) —
A-share codes for mapped items, original Chinese names for unmapped ones,
after REPORT_DATE — and each cell keeps the first non-NaN value per report
date; when STD_ITEM_NAME, AMOUNT or every date column is missing it
returns (None, {}).  The technical hypothesis hrd excludes an item column
literally named REPORT_DATE, which would collide with the reset_index date
column. -/
theorem convert_hk_long_to_wide_spec
    (df : DF) (sheet_type dc : String)
    (hne : df.rows ≠ [])
    (hitem : "STD_ITEM_NAME" ∈ df.cols)
    (hamt : "AMOUNT" ∈ df.cols)
    (hdc : HKAdapter.chooseDateCol df.cols = some dc)
    (hrd : ∀ r ∈ df.rows,
      HKAdapter.mappedItemName (HKAdapter.get_hk_column_mapping sheet_type) r ≠ "REPORT_DATE") :
    HKAdapter.convert_hk_long_to_wide (some df) sheet_type
      = (some (HKAdapter.hk_wide_frame df sheet_type dc),
         HKAdapter.hk_chinese_name_mapping df sheet_type) ∧
    (∀ cname, cname ∈ (HKAdapter.hk_wide_frame df sheet_type dc).cols ↔
      (cname = "REPORT_DATE" ∨ ∃ r ∈ df.rows,
        (Row.cellAt r dc ≠ Cell.nan ∧ (Row.cellAt r "AMOUNT").isNum = true) ∧
        HKAdapter.mappedItemName (HKAdapter.get_hk_column_mapping sheet_type) r = cname)) ∧
    (HKAdapter.hk_wide_frame df sheet_type dc).cols.Nodup ∧
    (∀ r ∈ df.rows, Row.cellAt r dc ≠ Cell.nan → (Row.cellAt r "AMOUNT").isNum = true →
      ∀ code,
      (HKAdapter.get_hk_column_mapping sheet_type).lookup (HKAdapter.itemOf r) = some code →
      code ∈ (HKAdapter.hk_wide_frame df sheet_type dc).cols) ∧
    (∀ r ∈ df.rows, Row.cellAt r dc ≠ Cell.nan → (Row.cellAt r "AMOUNT").isNum = true →
      (HKAdapter.get_hk_column_mapping sheet_type).lookup (HKAdapter.itemOf r) = none →
      HKAdapter.itemOf r ∈ (HKAdapter.hk_wide_frame df sheet_type dc).cols) ∧
    ((HKAdapter.hk_wide_frame df sheet_type dc).rows.map
      (fun w => Row.cellAt w "REPORT_DATE")).Nodup ∧
    (∀ d0, d0 ∈ (HKAdapter.hk_wide_frame df sheet_type dc).rows.map
        (fun w => Row.cellAt w "REPORT_DATE") ↔
      ∃ r ∈ df.rows, HKAdapter.hk_valid_row dc r = true ∧ Row.cellAt r dc = d0) ∧
    (∀ w ∈ (HKAdapter.hk_wide_frame df sheet_type dc).rows,
      ∀ cname, cname ≠ "REPORT_DATE" →
        cname ∈ (HKAdapter.hk_wide_frame df sheet_type dc).cols →
        Row.cellAt w cname =
          (match df.rows.find? (fun r =>
              HKAdapter.hk_valid_row dc r &&
              Row.cellAt r dc == Row.cellAt w "REPORT_DATE" &&
              HKAdapter.mappedItemName (HKAdapter.get_hk_column_mapping sheet_type) r
                == cname) with
            | some r => Row.cellAt r "AMOUNT"
            | none => Cell.nan)) ∧
    (∀ (df2 : DF) (st : String),
      ("STD_ITEM_NAME" ∉ df2.cols ∨ "AMOUNT" ∉ df2.cols) →
      HKAdapter.convert_hk_long_to_wide (some df2) st = (none, [])) ∧
    (∀ (df2 : DF) (st : String), HKAdapter.chooseDateCol df2.cols = none →
      HKAdapter.convert_hk_long_to_wide (some df2) st = (none, [])) := by
  have hrowsE : df.rows.isEmpty = false := by
    cases hxs : df.rows with
    | nil => exact absurd hxs hne
    | cons a l => rfl
  have hmapeq : ((HKAdapter.hk_dates df dc).map
      (HKAdapter.hk_wide_row df (HKAdapter.get_hk_column_mapping sheet_type) dc)).map
      (fun w => Row.cellAt w "REPORT_DATE") = HKAdapter.hk_dates df dc := by
    rw [List.map_map]
    have hgen : ∀ l : List Cell,
        l.map (fun d0 => Row.cellAt
          (HKAdapter.hk_wide_row df (HKAdapter.get_hk_column_mapping sheet_type) dc d0)
          "REPORT_DATE") = l := by
      intro l
      induction l with
      | nil => rfl
      | cons x xs ih => simp [cellAt_hk_wide_row_date, ih]
    exact hgen _
  refine ⟨?_, ?_, ?_, ?_, ?_, ?_, ?_, ?_, ?_, ?_⟩
  · simp only [HKAdapter.convert_hk_long_to_wide, hrowsE, Bool.false_eq_true, if_false,
      hdc]
    rw [if_neg (by simp [hitem, hamt])]
  · intro cname
    simp only [HKAdapter.hk_wide_frame, List.mem_cons, mem_hk_item_cols, hk_valid_row_eq]
  · refine List.Nodup.cons ?_ (nodup_hk_item_cols _ _ _)
    intro hmem
    obtain ⟨r, hr, _, heq⟩ := (mem_hk_item_cols _ _ _ _).mp hmem
    exact hrd r hr heq
  · intro r hr hd ha code hcode
    refine List.mem_cons_of_mem _ ((mem_hk_item_cols _ _ _ _).mpr
      ⟨r, hr, (hk_valid_row_eq _ _).mpr ⟨hd, ha⟩, ?_⟩)
    rw [HKAdapter.mappedItemName, hcode]
    rfl
  · intro r hr hd ha hcode
    refine List.mem_cons_of_mem _ ((mem_hk_item_cols _ _ _ _).mpr
      ⟨r, hr, (hk_valid_row_eq _ _).mpr ⟨hd, ha⟩, ?_⟩)
    rw [HKAdapter.mappedItemName, hcode]
    rfl
  · show (((HKAdapter.hk_dates df dc).map _).map _).Nodup
    rw [hmapeq]
    exact nodup_hk_dates _ _
  · intro d0
    show d0 ∈ ((HKAdapter.hk_dates df dc).map _).map _ ↔ _
    rw [hmapeq, mem_hk_dates]
  · intro w hw cname hcn hcm
    obtain ⟨d0, hd0, rfl⟩ := List.mem_map.mp hw
    have hitemc : cname ∈ HKAdapter.hk_item_cols df
        (HKAdapter.get_hk_column_mapping sheet_type) dc := by
      rcases List.mem_cons.mp hcm with h | h
      · exact absurd h hcn
      · exact h
    rw [cellAt_hk_wide_row_item _ _ _ _ _ hcn hitemc, cellAt_hk_wide_row_date]
    rfl
  · intro df2 st h
    simp only [HKAdapter.convert_hk_long_to_wide]
    by_cases h1 : df2.rows.isEmpty
    · rw [if_pos h1]
    · rw [if_neg h1, if_pos (by tauto)]
  · intro df2 st h
    simp only [HKAdapter.convert_hk_long_to_wide]
    by_cases h1 : df2.rows.isEmpty
    · rw [if_pos h1]
    · rw [if_neg h1]
      by_cases h2 : ("STD_ITEM_NAME" ∈ df2.cols ∧ "AMOUNT" ∈ df2.cols)
      · rw [if_neg (by tauto), h]
      · rw [if_pos (by tauto)]

/-- Witness for convert_hk_long_to_wide_spec on a concrete two-row 利润表
frame: the mapped item 营运收入 yields an OPERATE_INCOME column and the
unmapped item 自定义科目 keeps its own name. -/
theorem convert_hk_long_to_wide_spec_witness :
    HKAdapter.convert_hk_long_to_wide
      (some ⟨["STD_ITEM_NAME", "AMOUNT", "REPORT_DATE"],
        [[("STD_ITEM_NAME", Cell.s "营运收入"), ("AMOUNT", Cell.num 100),
          ("REPORT_DATE", Cell.s "2023-12-31")],
         [("STD_ITEM_NAME", Cell.s "自定义科目"), ("AMOUNT", Cell.num 7),
          ("REPORT_DATE", Cell.s "2023-12-31")]]⟩) "利润表"
      = (some (HKAdapter.hk_wide_frame
          ⟨["STD_ITEM_NAME", "AMOUNT", "REPORT_DATE"],
            [[("STD_ITEM_NAME", Cell.s "营运收入"), ("AMOUNT", Cell.num 100),
              ("REPORT_DATE", Cell.s "2023-12-31")],
             [("STD_ITEM_NAME", Cell.s "自定义科目"), ("AMOUNT", Cell.num 7),
              ("REPORT_DATE", Cell.s "2023-12-31")]]⟩ "利润表" "REPORT_DATE"),
         HKAdapter.hk_chinese_name_mapping
          ⟨["STD_ITEM_NAME", "AMOUNT", "REPORT_DATE"],
            [[("STD_ITEM_NAME", Cell.s "营运收入"), ("AMOUNT", Cell.num 100),
              ("REPORT_DATE", Cell.s "2023-12-31")],
             [("STD_ITEM_NAME", Cell.s "自定义科目"), ("AMOUNT", Cell.num 7),
              ("REPORT_DATE", Cell.s "2023-12-31")]]⟩ "利润表") ∧
    "OPERATE_INCOME" ∈ (HKAdapter.hk_wide_frame
      ⟨["STD_ITEM_NAME", "AMOUNT", "REPORT_DATE"],
        [[("STD_ITEM_NAME", Cell.s "营运收入"), ("AMOUNT", Cell.num 100),
          ("REPORT_DATE", Cell.s "2023-12-31")],
         [("STD_ITEM_NAME", Cell.s "自定义科目"), ("AMOUNT", Cell.num 7),
          ("REPORT_DATE", Cell.s "2023-12-31")]]⟩ "利润表" "REPORT_DATE").cols ∧
    "自定义科目" ∈ (HKAdapter.hk_wide_frame
      ⟨["STD_ITEM_NAME", "AMOUNT", "REPORT_DATE"],
        [[("STD_ITEM_NAME", Cell.s "营运收入"), ("AMOUNT", Cell.num 100),
          ("REPORT_DATE", Cell.s "2023-12-31")],
         [("STD_ITEM_NAME", Cell.s "自定义科目"), ("AMOUNT", Cell.num 7),
          ("REPORT_DATE", Cell.s "2023-12-31")]]⟩ "利润表" "REPORT_DATE").cols := by
  have h := convert_hk_long_to_wide_spec
    ⟨["STD_ITEM_NAME", "AMOUNT", "REPORT_DATE"],
      [[("STD_ITEM_NAME", Cell.s "营运收入"), ("AMOUNT", Cell.num 100),
        ("REPORT_DATE", Cell.s "2023-12-31")],
       [("STD_ITEM_NAME", Cell.s "自定义科目"), ("AMOUNT", Cell.num 7),
        ("REPORT_DATE", Cell.s "2023-12-31")]]⟩ "利润表" "REPORT_DATE"
    (by decide) (by decide) (by decide) (by decide) (by decide)
  refine ⟨h.1, ?_, ?_⟩
  · exact h.2.2.2.1
      [("STD_ITEM_NAME", Cell.s "营运收入"), ("AMOUNT", Cell.num 100),
       ("REPORT_DATE", Cell.s "2023-12-31")]
      (by decide) (by decide) (by decide) "OPERATE_INCOME" (by decide)
  · exact h.2.2.2.2.1
      [("STD_ITEM_NAME", Cell.s "自定义科目"), ("AMOUNT", Cell.num 7),
       ("REPORT_DATE", Cell.s "2023-12-31")]
      (by decide) (by decide) (by decide) (by decide)

/-- Counterexample to claim C1 as frozen, in two parts.  First, the empty
frame carries all three required columns, yet convert_hk_long_to_wide
returns (None, {}) instead of a (zero-row) pivot, because df.empty is
tested before anything else.  Second, on a non-empty frame the pandas NaN
semantics refute the claim's "every unmapped item keeps its original
Chinese name as column name": the unmapped item 自定义科目, whose only
amount is NaN, and the unmapped item X科目, whose only row has a NaN report
date, both occur under STD_ITEM_NAME yet get no column (pivot_table drops
all-NaN groups and NaN index keys); and the OPERATE_INCOME cell keeps 100
from the second 营运收入 row, not the NaN of the first, since
aggfunc=first takes the first non-NaN value per report date. -/
theorem convert_hk_long_to_wide_counterexample :
    ("STD_ITEM_NAME" ∈ (["STD_ITEM_NAME", "AMOUNT", "REPORT_DATE"] : List String)) ∧
    ("AMOUNT" ∈ (["STD_ITEM_NAME", "AMOUNT", "REPORT_DATE"] : List String)) ∧
    HKAdapter.chooseDateCol ["STD_ITEM_NAME", "AMOUNT", "REPORT_DATE"]
      = some "REPORT_DATE" ∧
    HKAdapter.convert_hk_long_to_wide
      (some ⟨["STD_ITEM_NAME", "AMOUNT", "REPORT_DATE"], []⟩) "利润表" = (none, []) ∧
    (HKAdapter.get_hk_column_mapping "利润表").lookup "自定义科目" = none ∧
    (HKAdapter.get_hk_column_mapping "利润表").lookup "X科目" = none ∧
    (⟨["STD_ITEM_NAME", "AMOUNT", "REPORT_DATE"],
      [[("STD_ITEM_NAME", Cell.s "营运收入"), ("AMOUNT", Cell.nan),
        ("REPORT_DATE", Cell.s "2023-12-31")],
       [("STD_ITEM_NAME", Cell.s "营运收入"), ("AMOUNT", Cell.num 100),
        ("REPORT_DATE", Cell.s "2023-12-31")],
       [("STD_ITEM_NAME", Cell.s "自定义科目"), ("AMOUNT", Cell.nan),
        ("REPORT_DATE", Cell.s "2023-12-31")],
       [("STD_ITEM_NAME", Cell.s "X科目"), ("AMOUNT", Cell.num 500000000),
        ("REPORT_DATE", Cell.nan)]]⟩ : DF).rows.map HKAdapter.itemOf
      = ["营运收入", "营运收入", "自定义科目", "X科目"] ∧
    (HKAdapter.convert_hk_long_to_wide
      (some ⟨["STD_ITEM_NAME", "AMOUNT", "REPORT_DATE"],
        [[("STD_ITEM_NAME", Cell.s "营运收入"), ("AMOUNT", Cell.nan),
          ("REPORT_DATE", Cell.s "2023-12-31")],
         [("STD_ITEM_NAME", Cell.s "营运收入"), ("AMOUNT", Cell.num 100),
          ("REPORT_DATE", Cell.s "2023-12-31")],
         [("STD_ITEM_NAME", Cell.s "自定义科目"), ("AMOUNT", Cell.nan),
          ("REPORT_DATE", Cell.s "2023-12-31")],
         [("STD_ITEM_NAME", Cell.s "X科目"), ("AMOUNT", Cell.num 500000000),
          ("REPORT_DATE", Cell.nan)]]⟩) "利润表").1
      = some (HKAdapter.hk_wide_frame
        ⟨["STD_ITEM_NAME", "AMOUNT", "REPORT_DATE"],
          [[("STD_ITEM_NAME", Cell.s "营运收入"), ("AMOUNT", Cell.nan),
            ("REPORT_DATE", Cell.s "2023-12-31")],
           [("STD_ITEM_NAME", Cell.s "营运收入"), ("AMOUNT", Cell.num 100),
            ("REPORT_DATE", Cell.s "2023-12-31")],
           [("STD_ITEM_NAME", Cell.s "自定义科目"), ("AMOUNT", Cell.nan),
            ("REPORT_DATE", Cell.s "2023-12-31")],
           [("STD_ITEM_NAME", Cell.s "X科目"), ("AMOUNT", Cell.num 500000000),
            ("REPORT_DATE", Cell.nan)]]⟩ "利润表" "REPORT_DATE") ∧
    (HKAdapter.hk_wide_frame
      ⟨["STD_ITEM_NAME", "AMOUNT", "REPORT_DATE"],
        [[("STD_ITEM_NAME", Cell.s "营运收入"), ("AMOUNT", Cell.nan),
          ("REPORT_DATE", Cell.s "2023-12-31")],
         [("STD_ITEM_NAME", Cell.s "营运收入"), ("AMOUNT", Cell.num 100),
          ("REPORT_DATE", Cell.s "2023-12-31")],
         [("STD_ITEM_NAME", Cell.s "自定义科目"), ("AMOUNT", Cell.nan),
          ("REPORT_DATE", Cell.s "2023-12-31")],
         [("STD_ITEM_NAME", Cell.s "X科目"), ("AMOUNT", Cell.num 500000000),
          ("REPORT_DATE", Cell.nan)]]⟩ "利润表" "REPORT_DATE").cols
      = ["REPORT_DATE", "OPERATE_INCOME"] ∧
    ((HKAdapter.hk_wide_frame
      ⟨["STD_ITEM_NAME", "AMOUNT", "REPORT_DATE"],
        [[("STD_ITEM_NAME", Cell.s "营运收入"), ("AMOUNT", Cell.nan),
          ("REPORT_DATE", Cell.s "2023-12-31")],
         [("STD_ITEM_NAME", Cell.s "营运收入"), ("AMOUNT", Cell.num 100),
          ("REPORT_DATE", Cell.s "2023-12-31")],
         [("STD_ITEM_NAME", Cell.s "自定义科目"), ("AMOUNT", Cell.nan),
          ("REPORT_DATE", Cell.s "2023-12-31")],
         [("STD_ITEM_NAME", Cell.s "X科目"), ("AMOUNT", Cell.num 500000000),
          ("REPORT_DATE", Cell.nan)]]⟩ "利润表" "REPORT_DATE").rows.map
      (fun w => Row.cellAt w "OPERATE_INCOME")) = [Cell.num 100] := by
  refine ⟨by decide, by decide, by decide, by decide, by decide, by decide, by decide,
    by decide, by decide, by decide⟩
